import Mathlib

/-!
# Verification of the BME680 air-quality baseline/calibration engine

Shallow embedding of `src/bme680_monitor/air_quality.py` (class
`AirQualityCalculator`).  Python floats are modelled as rationals (`ℚ`);
wall-clock time (`time.time()`) is an explicit parameter of every operation
that reads it; the persistence file is modelled by an explicit `FileState`
value; float division is modelled with an explicit zero test, since Python
raises `ZeroDivisionError` on a zero divisor.
-/

namespace BME680

/-- `AirQualityLevel(IntEnum)`: CALIBRATING = 0, POOR = 1, MODERATE = 2,
GOOD = 3. -/
inductive AirQualityLevel where
  | CALIBRATING
  | POOR
  | MODERATE
  | GOOD
deriving DecidableEq, Repr

/-- The numeric value of each `IntEnum` member. -/
def AirQualityLevel.toNat : AirQualityLevel → Nat
  | .CALIBRATING => 0
  | .POOR => 1
  | .MODERATE => 2
  | .GOOD => 3

/-- Python `min(a, b)` on two `IntEnum` values: compares by numeric value and
returns the left argument on ties. -/
def levelMin (a b : AirQualityLevel) : AirQualityLevel :=
  if a.toNat ≤ b.toNat then a else b

/-- The constructor parameters of `AirQualityCalculator` (durations in
seconds, resistances in Ohms, thresholds as in the source, with the source's
default absolute thresholds). -/
structure Config where
  burn_in_duration : ℚ
  baseline_sampling_duration : ℚ
  recalibration_interval : ℚ
  good_threshold : ℚ
  poor_threshold : ℚ
  clean_air_min : ℚ
  clean_air_max : ℚ
  baseline_max_age_hours : ℚ
  excellent_threshold_abs : ℚ := 150000
  good_threshold_abs : ℚ := 100000
  moderate_threshold_abs : ℚ := 50000
deriving DecidableEq, Repr

/-- The mutable instance state of `AirQualityCalculator`. -/
structure CalcState where
  gas_baseline : Option ℚ
  time_baseline_established : ℚ
  current_calibration_start_time : ℚ
  baseline_gas_readings : List ℚ
deriving DecidableEq, Repr

/-- Contents of a parsed persistence file: the values `data.get('baseline')`
and `data.get('timestamp')` (absent key ↦ `none`).  The informational
`timestamp_readable` field is ignored by the reader. -/
structure FileData where
  baseline : Option ℚ
  timestamp : Option ℚ
deriving DecidableEq, Repr

/-- The observable state of the persistence file: missing, present but not
valid JSON, or parsed into a `FileData`. -/
inductive FileState where
  | absent
  | unparsable
  | parsed (data : FileData)
deriving DecidableEq, Repr

/-- Python truthiness test `not x` applied to an optional float: true when
the value is `None` (key absent) or equal to `0` (zero floats are falsy). -/
def pyFalsy : Option ℚ → Bool
  | none => true
  | some x => x == 0

/-- `AirQualityCalculator.load_baseline`: returns the loaded
`(baseline, timestamp)` pair on success, `none` on any soft failure (file
absent, unparsable JSON, falsy fields, or `age_hours >= baseline_max_age_hours`). -/
def load_baseline (cfg : Config) (now : ℚ) (file : FileState) : Option (ℚ × ℚ) :=
  match file with
  | .absent => none
  | .unparsable => none
  | .parsed data =>
    if pyFalsy data.baseline || pyFalsy data.timestamp then none
    else
      match data.baseline, data.timestamp with
      | some saved_baseline, some saved_timestamp =>
        let age_hours := (now - saved_timestamp) / 3600
        if cfg.baseline_max_age_hours ≤ age_hours then none
        else some (saved_baseline, saved_timestamp)
      | _, _ => none

/-- The in-memory state at the start of `__init__`, before the
`load_baseline` attempt: no baseline, empty buffer, calibration clock
started now. -/
def initCold (t0 : ℚ) : CalcState :=
  { gas_baseline := none
    time_baseline_established := 0
    current_calibration_start_time := t0
    baseline_gas_readings := [] }

/-- `AirQualityCalculator.__init__` at time `t0` against persistence state
`file`: on a successful load the calibration start time is back-dated by
`burn_in_duration + baseline_sampling_duration` so that both calibration
phases are skipped. -/
def initCalculator (cfg : Config) (t0 : ℚ) (file : FileState) : CalcState :=
  match load_baseline cfg t0 file with
  | none => initCold t0
  | some (b, ts) =>
    { gas_baseline := some b
      time_baseline_established := ts
      current_calibration_start_time :=
        t0 - (cfg.burn_in_duration + cfg.baseline_sampling_duration)
      baseline_gas_readings := [] }

/-- `AirQualityCalculator.save_baseline`: writes `{baseline, timestamp}` when
a baseline exists, otherwise leaves the file untouched (the informational
`timestamp_readable` field is not modelled; readers ignore it). -/
def save_baseline (s : CalcState) (file : FileState) : FileState :=
  match s.gas_baseline with
  | none => file
  | some b => .parsed { baseline := some b, timestamp := some s.time_baseline_established }

/-- `AirQualityCalculator.should_recalibrate`. -/
def should_recalibrate (cfg : Config) (s : CalcState) (now : ℚ) : Bool :=
  match s.gas_baseline with
  | none => false
  | some _ =>
    if cfg.recalibration_interval ≤ 0 then false
    else decide (cfg.recalibration_interval < now - s.time_baseline_established)

/-- `AirQualityCalculator.trigger_recalibration`. -/
def trigger_recalibration (s : CalcState) (now : ℚ) : CalcState :=
  { s with
    current_calibration_start_time := now
    gas_baseline := none
    baseline_gas_readings := []
    time_baseline_established := 0 }

/-- `AirQualityCalculator._assess_absolute_quality`. -/
def assess_absolute_quality (cfg : Config) (gas_resistance : ℚ) : AirQualityLevel :=
  if cfg.excellent_threshold_abs < gas_resistance then .GOOD
  else if cfg.good_threshold_abs < gas_resistance then .GOOD
  else if cfg.moderate_threshold_abs < gas_resistance then .MODERATE
  else .POOR

/-- `AirQualityCalculator._assess_relative_quality` (the parameter is the
ratio `current_gas / baseline_gas`). -/
def assess_relative_quality (cfg : Config) (r : ℚ) : AirQualityLevel :=
  if cfg.good_threshold < r then .GOOD
  else if r < cfg.poor_threshold then .POOR
  else .MODERATE

/-- The fixed label map of `AirQualityCalculator._level_to_tuple`. -/
def level_label : AirQualityLevel → String
  | .CALIBRATING => "Calibrating"
  | .POOR => "Poor"
  | .MODERATE => "Moderate"
  | .GOOD => "Good"

/-- Python `int()` of a float: truncation toward zero. -/
def pyInt (q : ℚ) : ℤ := if q < 0 then ⌈q⌉ else ⌊q⌋

/-- Outcome of one `update` call: the post-call state together with the
returned `(index, label)` pair, or the `ZeroDivisionError` Python raises when
`gas_resistance / gas_baseline` divides by a zero baseline. -/
inductive UpdateResult where
  | ok (s : CalcState) (level : AirQualityLevel) (label : String)
  | zeroDivisionError
deriving DecidableEq, Repr

/-- Lines 272-287 of `update`: the hybrid classification once establishment
has been attempted.  Absolute assessment first, then the ratio (raising on a
zero baseline, as Python float division does), then relative assessment,
combined by `min`; the `"Need Baseline"` fallback closes the method. -/
def classify (cfg : Config) (s : CalcState) (gas_resistance : ℚ) : UpdateResult :=
  match s.gas_baseline with
  | some b =>
    let absolute_level := assess_absolute_quality cfg gas_resistance
    if b = 0 then .zeroDivisionError
    else
      let relative_level := assess_relative_quality cfg (gas_resistance / b)
      let final_level := levelMin absolute_level relative_level
      .ok s final_level (level_label final_level)
  | none => .ok s .CALIBRATING "Need Baseline"

/-- `AirQualityCalculator.update` after the recalibration check (lines
214-287): heater-unstable early returns, burn-in, baseline sampling,
baseline establishment (arithmetic mean of the buffer, cleared on success),
then hybrid classification. -/
def update_post (cfg : Config) (s : CalcState) (now gas_resistance : ℚ)
    (heat_stable : Bool) : UpdateResult :=
  let elapsed := now - s.current_calibration_start_time
  if heat_stable = false then
    if elapsed < cfg.burn_in_duration then .ok s .CALIBRATING "Burn-in (Gas)"
    else .ok s .CALIBRATING "Gas Heating"
  else if elapsed < cfg.burn_in_duration then
    .ok s .CALIBRATING
      ("Burn-in (" ++ toString (pyInt (cfg.burn_in_duration - elapsed)) ++ "s)")
  else if elapsed < cfg.burn_in_duration + cfg.baseline_sampling_duration then
    let s' := { s with baseline_gas_readings := s.baseline_gas_readings ++ [gas_resistance] }
    .ok s' .CALIBRATING ("Baseline (" ++ toString s'.baseline_gas_readings.length ++ ")")
  else
    match s.gas_baseline with
    | none =>
      if s.baseline_gas_readings = [] then .ok s .CALIBRATING "Baseline Fail"
      else
        let b := s.baseline_gas_readings.sum / (s.baseline_gas_readings.length : ℚ)
        let s' := { s with
          gas_baseline := some b
          time_baseline_established := now
          baseline_gas_readings := [] }
        classify cfg s' gas_resistance
    | some _ => classify cfg s gas_resistance

/-- `AirQualityCalculator.update`: first the automatic recalibration check
(lines 211-212), then the per-tick transition. -/
def update (cfg : Config) (s : CalcState) (now gas_resistance : ℚ)
    (heat_stable : Bool) : UpdateResult :=
  update_post cfg
    (if should_recalibrate cfg s now then trigger_recalibration s now else s)
    now gas_resistance heat_stable

/-- The dictionary returned by `AirQualityCalculator.get_baseline_info` when
a baseline exists. -/
structure BaselineInfo where
  baseline_ohms : ℚ
  baseline_kohms : ℚ
  timestamp : ℚ
  age_hours : ℚ
  is_valid : Bool
deriving DecidableEq, Repr

/-- `AirQualityCalculator.get_baseline_info`: a read-only snapshot.  The
Python method assigns no attribute, so the state component of the result is
the input state unchanged. -/
def get_baseline_info (cfg : Config) (s : CalcState) (now : ℚ) :
    Option BaselineInfo × CalcState :=
  match s.gas_baseline with
  | none => (none, s)
  | some b =>
    (some { baseline_ohms := b
            baseline_kohms := b / 1000
            timestamp := s.time_baseline_established
            age_hours := (now - s.time_baseline_established) / 3600
            is_valid := !(should_recalibrate cfg s now) }, s)

/-- Modelled from the spec: the `CalibrationPhase` enum (`BURN_IN`,
`BASELINE_SAMPLING`, `ACTIVE`) is a spec-level concept; the code keeps no
phase variable and derives the phase from elapsed time by the branch
conditions of `update` (lines 224 and 229). -/
inductive CalibrationPhase where
  | BURN_IN
  | BASELINE_SAMPLING
  | ACTIVE
deriving DecidableEq, Repr

/-- Modelled from the spec: the phase of a calculator state at time `now`,
"driven purely by elapsed wall-clock time since phase start", with the branch
boundaries of `update`: `elapsed < burn_in` is burn-in,
`elapsed < burn_in + sampling` is baseline sampling, past both is active. -/
def phase (cfg : Config) (s : CalcState) (now : ℚ) : CalibrationPhase :=
  if now - s.current_calibration_start_time < cfg.burn_in_duration then .BURN_IN
  else if now - s.current_calibration_start_time <
      cfg.burn_in_duration + cfg.baseline_sampling_duration then .BASELINE_SAMPLING
  else .ACTIVE

/-- Reachable `(state, time-of-last-call)` pairs: a calculator freshly
constructed at some time against some persistence file, then driven by any
sequence of completed `update` calls at nondecreasing wall-clock times. -/
inductive Reachable (cfg : Config) : CalcState → ℚ → Prop where
  | boot (t0 : ℚ) (file : FileState) : Reachable cfg (initCalculator cfg t0 file) t0
  | step {s : CalcState} {now : ℚ} (now' gas : ℚ) (hs : Bool) {s' : CalcState}
      {lvl : AirQualityLevel} {lbl : String}
      (hr : Reachable cfg s now) (hmono : now ≤ now')
      (hup : update cfg s now' gas hs = .ok s' lvl lbl) :
      Reachable cfg s' now'

/-! ## Concrete instances used in witnesses and counterexamples -/

/-- The configuration of the repository's own test suite: `burn_in=10` scaled
here to 1 s and `sampling` to 1 s for compact traces, thresholds `1.35` /
`0.70`, clean-air range 50–200 kΩ, recalibration disabled, 24 h max age,
default absolute thresholds. -/
def defaultCfg : Config :=
  { burn_in_duration := 1
    baseline_sampling_duration := 1
    recalibration_interval := 0
    good_threshold := 27/20
    poor_threshold := 7/10
    clean_air_min := 50000
    clean_air_max := 200000
    baseline_max_age_hours := 24 }

/-- An active calculator whose baseline is 40000 Ω. -/
def sB : CalcState :=
  { gas_baseline := some 40000
    time_baseline_established := 50
    current_calibration_start_time := 0
    baseline_gas_readings := [] }

/-- The state after one sampling tick collected the single reading `0`. -/
def s1z : CalcState :=
  { gas_baseline := none
    time_baseline_established := 0
    current_calibration_start_time := 0
    baseline_gas_readings := [0] }

/-- The state after one sampling tick collected the single reading `100`. -/
def s1 : CalcState :=
  { gas_baseline := none
    time_baseline_established := 0
    current_calibration_start_time := 0
    baseline_gas_readings := [100] }

/-- A persisted record `{baseline: 100000, timestamp: 3600}`. -/
def file0 : FileState := .parsed { baseline := some 100000, timestamp := some 3600 }

/-- A persisted record loadable at time 10 under `defaultCfg`. -/
def goodFile : FileState := .parsed { baseline := some 100000, timestamp := some 5 }

/-- `defaultCfg` with a 60 s recalibration interval. -/
def cfgR : Config := { defaultCfg with recalibration_interval := 60 }

/-- An active calculator whose baseline (100000 Ω) was established at time 0. -/
def sR : CalcState :=
  { gas_baseline := some 100000
    time_baseline_established := 0
    current_calibration_start_time := -1000
    baseline_gas_readings := [] }

/-- An active calculator whose baseline 123456 Ω was established at time 100. -/
def sEst : CalcState :=
  { gas_baseline := some 123456
    time_baseline_established := 100
    current_calibration_start_time := 0
    baseline_gas_readings := [] }

/-- `sEst` with a zero baseline, as established from all-zero samples. -/
def sZero : CalcState := { sEst with gas_baseline := some 0 }

/-- An active calculator past both windows with an empty buffer and no
baseline. -/
def sFail : CalcState :=
  { gas_baseline := none
    time_baseline_established := 0
    current_calibration_start_time := 0
    baseline_gas_readings := [] }

/-! ## Helper lemmas -/

/-- When the recalibration check is off and the state is past both windows
with an established baseline, a heat-stable `update` is exactly the hybrid
classification. -/
lemma update_eq_classify {cfg : Config} {s : CalcState} {now : ℚ} (gas : ℚ)
    (hnr : should_recalibrate cfg s now = false)
    (h1 : cfg.burn_in_duration ≤ now - s.current_calibration_start_time)
    (h2 : cfg.burn_in_duration + cfg.baseline_sampling_duration ≤
      now - s.current_calibration_start_time)
    {b : ℚ} (hb : s.gas_baseline = some b) :
    update cfg s now gas true = classify cfg s gas := by
  unfold update update_post
  rw [hnr]
  simp only [Bool.false_eq_true, Bool.true_eq_false, if_false,
    if_neg (not_lt.mpr h1), if_neg (not_lt.mpr h2)]
  rw [hb]

/-- The absolute assessment never yields `CALIBRATING`. -/
lemma absolute_ne_calibrating (cfg : Config) (gas : ℚ) :
    assess_absolute_quality cfg gas ≠ .CALIBRATING := by
  unfold assess_absolute_quality
  split_ifs <;> simp

/-- `min` with `POOR` on the right is `POOR` for any non-`CALIBRATING`
level. -/
lemma levelMin_poor {a : AirQualityLevel} (ha : a ≠ .CALIBRATING) :
    levelMin a .POOR = .POOR := by
  cases a <;> first | rfl | exact absurd rfl ha

/-- Past both windows with no baseline and an empty buffer, a heat-stable
`update` reports the baseline failure and leaves the state untouched. -/
lemma update_baseline_fail {cfg : Config} {s : CalcState} {now : ℚ} (gas : ℚ)
    (hb : s.gas_baseline = none) (hbuf : s.baseline_gas_readings = [])
    (h1 : cfg.burn_in_duration ≤ now - s.current_calibration_start_time)
    (h2 : cfg.burn_in_duration + cfg.baseline_sampling_duration ≤
      now - s.current_calibration_start_time) :
    update cfg s now gas true = .ok s .CALIBRATING "Baseline Fail" := by
  have hnr : should_recalibrate cfg s now = false := by
    unfold should_recalibrate
    rw [hb]
  unfold update update_post
  rw [hnr]
  simp only [Bool.false_eq_true, Bool.true_eq_false, if_false,
    if_neg (not_lt.mpr h1), if_neg (not_lt.mpr h2)]
  rw [hb, if_pos hbuf]

/-! ## Claims -/

/-- C1: with an established nonzero baseline, no pending recalibration, and
elapsed time past both windows, the final level returned by `update` is the
Python `min` of the absolute and the relative assessment under the numeric
order POOR < MODERATE < GOOD; in particular relative GOOD with absolute POOR
yields POOR and absolute GOOD with relative POOR yields POOR — neither signal
can upgrade the result above the other. -/
theorem C1_final_level_is_min (cfg : Config) (s : CalcState) (now gas b : ℚ)
    (hb : s.gas_baseline = some b) (hb0 : b ≠ 0)
    (hnr : should_recalibrate cfg s now = false)
    (h1 : cfg.burn_in_duration ≤ now - s.current_calibration_start_time)
    (h2 : cfg.burn_in_duration + cfg.baseline_sampling_duration ≤
      now - s.current_calibration_start_time) :
    update cfg s now gas true =
      .ok s (levelMin (assess_absolute_quality cfg gas) (assess_relative_quality cfg (gas / b)))
        (level_label (levelMin (assess_absolute_quality cfg gas)
          (assess_relative_quality cfg (gas / b)))) ∧
    (assess_relative_quality cfg (gas / b) = .GOOD →
      assess_absolute_quality cfg gas = .POOR →
      levelMin (assess_absolute_quality cfg gas)
        (assess_relative_quality cfg (gas / b)) = .POOR) ∧
    (assess_absolute_quality cfg gas = .GOOD →
      assess_relative_quality cfg (gas / b) = .POOR →
      levelMin (assess_absolute_quality cfg gas)
        (assess_relative_quality cfg (gas / b)) = .POOR) := by
  refine ⟨?_, ?_, ?_⟩
  · rw [update_eq_classify gas hnr h1 h2 hb]
    unfold classify
    rw [hb]
    simp only [if_neg hb0]
  · intro hrel habs
    rw [hrel, habs]
    rfl
  · intro habs hrel
    rw [habs, hrel]
    rfl

/-- C1 witness: baseline 40000 Ω, reading 140000 Ω under `defaultCfg` — both
signals GOOD, result `(3, "Good")`. -/
theorem C1_witness :
    update defaultCfg sB 100 140000 true = .ok sB .GOOD "Good" := by
  have h := C1_final_level_is_min defaultCfg sB 100 140000 40000 rfl (by norm_num)
    (by simp [should_recalibrate, sB, defaultCfg]) (by norm_num [defaultCfg, sB])
    (by norm_num [defaultCfg, sB])
  rw [h.1]
  norm_num [assess_absolute_quality, assess_relative_quality, defaultCfg, levelMin,
    AirQualityLevel.toNat, level_label]

/-- C2 counterexample: baseline 40000 Ω, reading 40000 Ω: the ratio is 1,
strictly between the thresholds 0.70 and 1.35, so the claim predicts
MODERATE; the absolute assessment of 40000 Ω (below `moderate_threshold_abs
= 50000`) is POOR and the pessimistic combiner returns POOR. -/
theorem C2_counterexample :
    update defaultCfg sB 100 40000 true = .ok sB .POOR "Poor" ∧
    AirQualityLevel.POOR ≠ AirQualityLevel.MODERATE := by
  refine ⟨?_, by decide⟩
  norm_num [update, update_post, classify, should_recalibrate, defaultCfg, sB,
    assess_absolute_quality, assess_relative_quality, levelMin, AirQualityLevel.toNat,
    level_label]

/-- C2 amended: with an established nonzero baseline, sanely ordered ratio
thresholds (`poor ≤ good`), no pending recalibration and elapsed time past
both windows: if `ratio > good_threshold` and the absolute signal is GOOD
(not worse), the result is GOOD; if `ratio < poor_threshold` the result is
POOR; otherwise the result is MODERATE provided the absolute signal is not
POOR (an absolute POOR forces the result down to POOR). -/
theorem C2_amended_thresholds (cfg : Config) (s : CalcState) (now gas b : ℚ)
    (hb : s.gas_baseline = some b) (hb0 : b ≠ 0)
    (hth : cfg.poor_threshold ≤ cfg.good_threshold)
    (hnr : should_recalibrate cfg s now = false)
    (h1 : cfg.burn_in_duration ≤ now - s.current_calibration_start_time)
    (h2 : cfg.burn_in_duration + cfg.baseline_sampling_duration ≤
      now - s.current_calibration_start_time) :
    (cfg.good_threshold < gas / b → assess_absolute_quality cfg gas = .GOOD →
      update cfg s now gas true = .ok s .GOOD "Good") ∧
    (gas / b < cfg.poor_threshold →
      update cfg s now gas true = .ok s .POOR "Poor") ∧
    (¬(cfg.good_threshold < gas / b) → ¬(gas / b < cfg.poor_threshold) →
      assess_absolute_quality cfg gas ≠ .POOR →
      update cfg s now gas true = .ok s .MODERATE "Moderate") := by
  have hup := update_eq_classify gas hnr h1 h2 hb
  have hcl : classify cfg s gas =
      .ok s (levelMin (assess_absolute_quality cfg gas) (assess_relative_quality cfg (gas / b)))
        (level_label (levelMin (assess_absolute_quality cfg gas)
          (assess_relative_quality cfg (gas / b)))) := by
    unfold classify
    rw [hb]
    simp only [if_neg hb0]
  refine ⟨?_, ?_, ?_⟩
  · intro hg habs
    have hrel : assess_relative_quality cfg (gas / b) = .GOOD := by
      unfold assess_relative_quality
      rw [if_pos hg]
    rw [hup, hcl, habs, hrel]
    rfl
  · intro hp
    have hrel : assess_relative_quality cfg (gas / b) = .POOR := by
      unfold assess_relative_quality
      rw [if_neg (not_lt.mpr (le_of_lt (lt_of_lt_of_le hp hth))), if_pos hp]
    rw [hup, hcl, hrel]
    rw [levelMin_poor (absolute_ne_calibrating cfg gas)]
    rfl
  · intro hg hp habs
    have hrel : assess_relative_quality cfg (gas / b) = .MODERATE := by
      unfold assess_relative_quality
      rw [if_neg hg, if_neg hp]
    rw [hup, hcl, hrel]
    cases habs2 : assess_absolute_quality cfg gas with
    | CALIBRATING => exact absurd habs2 (absolute_ne_calibrating cfg gas)
    | POOR => exact absurd habs2 habs
    | MODERATE => rfl
    | GOOD => rfl

/-- C2 witness: baseline 40000 Ω, reading 150001 Ω: ratio above 1.35 and
absolute GOOD, so the result is `(3, "Good")`. -/
theorem C2_witness :
    update defaultCfg sB 100 150001 true = .ok sB .GOOD "Good" :=
  (C2_amended_thresholds defaultCfg sB 100 150001 40000 rfl (by norm_num)
    (by norm_num [defaultCfg]) (by simp [should_recalibrate, sB, defaultCfg])
    (by norm_num [defaultCfg, sB]) (by norm_num [defaultCfg, sB])).1
    (by norm_num [defaultCfg, sB])
    (by norm_num [assess_absolute_quality, defaultCfg])

/-- C3: with an established baseline, a positive recalibration interval and
`now - time_baseline_established` past it, the next `update` call first
resets the calibrator — baseline cleared, sample buffer cleared, calibration
start time reset to `now` — and the whole call factors through that reset
before the reading is processed; whatever the reading, the call returns a
CALIBRATING outcome and the post-state still has no baseline. -/
theorem C3_recalibration_resets (cfg : Config) (s : CalcState) (now gas : ℚ)
    (hs : Bool) (b : ℚ)
    (hb : s.gas_baseline = some b)
    (hpos : 0 < cfg.recalibration_interval)
    (hstale : cfg.recalibration_interval < now - s.time_baseline_established) :
    should_recalibrate cfg s now = true ∧
    (trigger_recalibration s now).gas_baseline = none ∧
    (trigger_recalibration s now).baseline_gas_readings = [] ∧
    (trigger_recalibration s now).current_calibration_start_time = now ∧
    update cfg s now gas hs = update_post cfg (trigger_recalibration s now) now gas hs ∧
    ∃ s' lbl, update cfg s now gas hs = .ok s' .CALIBRATING lbl ∧
      s'.gas_baseline = none := by
  have hsr : should_recalibrate cfg s now = true := by
    unfold should_recalibrate
    rw [hb, if_neg (not_le.mpr hpos)]
    exact decide_eq_true hstale
  have hfac : update cfg s now gas hs =
      update_post cfg (trigger_recalibration s now) now gas hs := by
    unfold update
    rw [hsr]
    simp
  refine ⟨hsr, rfl, rfl, rfl, hfac, ?_⟩
  rw [hfac]
  unfold update_post
  simp only [trigger_recalibration]
  cases hs with
  | false => split_ifs <;> exact ⟨_, _, rfl, rfl⟩
  | true => split_ifs <;> simp_all

/-- C3 witness: interval 60 s, baseline established at time 0, tick at
time 61 with a reading that would classify GOOD. -/
theorem C3_witness :
    should_recalibrate cfgR sR 61 = true ∧
    (trigger_recalibration sR 61).gas_baseline = none ∧
    (trigger_recalibration sR 61).baseline_gas_readings = [] ∧
    (trigger_recalibration sR 61).current_calibration_start_time = 61 ∧
    update cfgR sR 61 140000 true =
      update_post cfgR (trigger_recalibration sR 61) 61 140000 true ∧
    ∃ s' lbl, update cfgR sR 61 140000 true = .ok s' .CALIBRATING lbl ∧
      s'.gas_baseline = none :=
  C3_recalibration_resets cfgR sR 61 140000 true 100000 rfl
    (by norm_num [cfgR, defaultCfg]) (by norm_num [cfgR, defaultCfg, sR])

/-- C6: past both windows with `heat_stable = true`, no baseline and an empty
sample buffer, `update` returns the distinct CALIBRATING "Baseline Fail"
outcome without error, establishes no baseline, and leaves the state
unchanged, so any later heat-stable tick re-enters this same branch and
retries. -/
theorem C6_degenerate_sampling (cfg : Config) (s : CalcState) (now now' gas gas' : ℚ)
    (hb : s.gas_baseline = none) (hbuf : s.baseline_gas_readings = [])
    (h1 : cfg.burn_in_duration ≤ now - s.current_calibration_start_time)
    (h2 : cfg.burn_in_duration + cfg.baseline_sampling_duration ≤
      now - s.current_calibration_start_time)
    (hmono : now ≤ now') :
    update cfg s now gas true = .ok s .CALIBRATING "Baseline Fail" ∧
    update cfg s now' gas' true = .ok s .CALIBRATING "Baseline Fail" := by
  have hle : now - s.current_calibration_start_time ≤
      now' - s.current_calibration_start_time := sub_le_sub_right hmono _
  exact ⟨update_baseline_fail gas hb hbuf h1 h2,
    update_baseline_fail gas' hb hbuf (h1.trans hle) (h2.trans hle)⟩

/-- C6 witness: both windows are over at times 5 and 9 under `defaultCfg`;
both ticks report "Baseline Fail" and keep the state intact. -/
theorem C6_witness :
    update defaultCfg sFail 5 77 true = .ok sFail .CALIBRATING "Baseline Fail" ∧
    update defaultCfg sFail 9 88 true = .ok sFail .CALIBRATING "Baseline Fail" :=
  C6_degenerate_sampling defaultCfg sFail 5 9 77 88 rfl rfl
    (by norm_num [defaultCfg, sFail]) (by norm_num [defaultCfg, sFail]) (by norm_num)

/-- The claim's stated condition for `load()` returning "not loaded": file
absent, file unparsable, a required field missing, or the record's age
strictly exceeding `max_baseline_age_hours` converted to seconds (stated
from the claim, for comparison with the code's behaviour). -/
def notLoaded_claimed (cfg : Config) (now : ℚ) (file : FileState) : Prop :=
  file = .absent ∨ file = .unparsable ∨
  (∃ d, file = .parsed d ∧ (d.baseline = none ∨ d.timestamp = none)) ∨
  (∃ d b ts, file = .parsed d ∧ d.baseline = some b ∧ d.timestamp = some ts ∧
    cfg.baseline_max_age_hours * 3600 < now - ts)

/-- C4 counterexample: the record `{baseline: 100000, timestamp: 3600}` read
at time 90000 is exactly 24 h old — its age does not exceed
`max_baseline_age_hours`, and no field is absent — yet `load_baseline`
rejects it, because the code tests `age_hours >= baseline_max_age_hours`. -/
theorem C4_counterexample :
    load_baseline defaultCfg 90000 file0 = none ∧
    ¬ notLoaded_claimed defaultCfg 90000 file0 := by
  constructor
  · norm_num [load_baseline, file0, pyFalsy, defaultCfg]
  · norm_num [notLoaded_claimed, file0, defaultCfg]
    refine ⟨?_, ?_, ?_, ?_⟩ <;> simp

/-- C4 amended: `load_baseline` returns "not loaded" exactly when the file is
absent, the file is unparsable, a required field is missing or zero
(Python-falsy), or the record's age is at least (`>=`, not strictly greater
than) `max_baseline_age_hours`; in particular every strictly older record is
rejected. -/
theorem C4_amended_iff (cfg : Config) (now : ℚ) (file : FileState) :
    load_baseline cfg now file = none ↔
      file = .absent ∨ file = .unparsable ∨
      (∃ d, file = .parsed d ∧ (pyFalsy d.baseline = true ∨ pyFalsy d.timestamp = true)) ∨
      (∃ d b ts, file = .parsed d ∧ d.baseline = some b ∧ d.timestamp = some ts ∧
        cfg.baseline_max_age_hours ≤ (now - ts) / 3600) := by
  cases file with
  | absent => simp [load_baseline]
  | unparsable => simp [load_baseline]
  | parsed d =>
    obtain ⟨ob, ot⟩ := d
    cases ob with
    | none => simp [load_baseline, pyFalsy]
    | some b =>
      cases ot with
      | none => simp [load_baseline, pyFalsy]
      | some t =>
        by_cases hb : b = 0
        · subst hb
          simp [load_baseline, pyFalsy]
        · by_cases ht : t = 0
          · subst ht
            simp [load_baseline, pyFalsy, hb]
          · by_cases hage : cfg.baseline_max_age_hours ≤ (now - t) / 3600
            · simp [load_baseline, pyFalsy, hb, ht, hage]
            · simp [load_baseline, pyFalsy, hb, ht, hage]

/-- C5 (refuting evaluation): from a freshly constructed calculator, one
sampling tick with the degenerate reading 0 Ω reaches `s1z`; on the next
heat-stable tick past the windows, `update` establishes the mean baseline 0
and then computes `gas_resistance / gas_baseline`, which raises
`ZeroDivisionError` instead of returning a classification. -/
theorem C5_zero_baseline_raises :
    Reachable defaultCfg s1z 1 ∧
    update defaultCfg s1z 2 5 true = .zeroDivisionError := by
  constructor
  · have h0 : Reachable defaultCfg (initCalculator defaultCfg 0 .absent) 0 :=
      .boot 0 .absent
    have h1 : update defaultCfg (initCalculator defaultCfg 0 .absent) 1 0 true =
        .ok s1z .CALIBRATING "Baseline (1)" := by
      norm_num [update, update_post, should_recalibrate, initCalculator, load_baseline,
        initCold, defaultCfg, s1z]
      rfl
    exact .step 1 0 true h0 (by norm_num) h1
  · norm_num [update, update_post, classify, should_recalibrate, defaultCfg, s1z]

/-- C8 counterexample: a calculator whose established baseline is 0 Ω (the
mean of all-zero samples) saves the record `{baseline: 0, timestamp: 100}`;
a fresh construction against that file at time 100 — the record is fresh —
rejects the zero field as Python-falsy and does not reproduce the
baseline. -/
theorem C8_counterexample :
    sZero.gas_baseline = some 0 ∧
    (100 - sZero.time_baseline_established) / 3600 < defaultCfg.baseline_max_age_hours ∧
    (initCalculator defaultCfg 100 (save_baseline sZero .absent)).gas_baseline = none := by
  refine ⟨rfl, by norm_num [sZero, sEst, defaultCfg], ?_⟩
  norm_num [initCalculator, load_baseline, save_baseline, pyFalsy, sZero, sEst,
    initCold, defaultCfg]

/-- C8 amended: `save()` followed by a fresh construction against the same
persistence path reproduces the same `gas_baseline` exactly, provided the
record's age is under `max_baseline_age_hours` and the saved baseline value
and timestamp are nonzero (zero values are Python-falsy and are rejected by
`load()` as if the field were missing). -/
theorem C8_amended_roundtrip (cfg : Config) (s : CalcState) (b t1 : ℚ)
    (hb : s.gas_baseline = some b) (hb0 : b ≠ 0)
    (ht : s.time_baseline_established ≠ 0)
    (hage : (t1 - s.time_baseline_established) / 3600 < cfg.baseline_max_age_hours) :
    (initCalculator cfg t1 (save_baseline s .absent)).gas_baseline = some b := by
  unfold save_baseline
  rw [hb]
  unfold initCalculator load_baseline
  simp [pyFalsy, hb0, ht, not_le.mpr hage]

/-- C8 witness: baseline 123456 Ω established at time 100, saved and
reloaded by a fresh construction at time 200. -/
theorem C8_witness :
    (initCalculator defaultCfg 200 (save_baseline sEst .absent)).gas_baseline =
      some 123456 :=
  C8_amended_roundtrip defaultCfg sEst 123456 200 rfl (by norm_num)
    (by norm_num [sEst]) (by norm_num [sEst, defaultCfg])

/-- The ACTIVE phase holds exactly past both windows. -/
lemma phase_eq_active {cfg : Config} {s : CalcState} {now : ℚ}
    (h1 : ¬(now - s.current_calibration_start_time < cfg.burn_in_duration))
    (h2 : ¬(now - s.current_calibration_start_time <
      cfg.burn_in_duration + cfg.baseline_sampling_duration)) :
    phase cfg s now = .ACTIVE := by
  unfold phase
  rw [if_neg h1, if_neg h2]

/-- Conversely, ACTIVE forces both window bounds. -/
lemma phase_active_elim {cfg : Config} {s : CalcState} {now : ℚ}
    (h : phase cfg s now = .ACTIVE) :
    ¬(now - s.current_calibration_start_time < cfg.burn_in_duration) ∧
    ¬(now - s.current_calibration_start_time <
      cfg.burn_in_duration + cfg.baseline_sampling_duration) := by
  unfold phase at h
  split_ifs at h with h1 h2
  exact ⟨h1, h2⟩

/-- Past the burn-in bound the phase is not BURN_IN. -/
lemma phase_ne_burnin {cfg : Config} {s : CalcState} {now : ℚ}
    (h : ¬(now - s.current_calibration_start_time < cfg.burn_in_duration)) :
    phase cfg s now ≠ .BURN_IN := by
  unfold phase
  rw [if_neg h]
  split_ifs <;> simp

/-- Conversely, a non-BURN_IN phase means the burn-in bound has passed. -/
lemma phase_ne_burnin_elim {cfg : Config} {s : CalcState} {now : ℚ}
    (h : phase cfg s now ≠ .BURN_IN) :
    ¬(now - s.current_calibration_start_time < cfg.burn_in_duration) := by
  unfold phase at h
  intro hlt
  rw [if_pos hlt] at h
  exact h rfl

/-- The state invariant at a tick time: a baseline only in the ACTIVE phase;
a non-empty sample buffer only with no baseline and past burn-in. -/
def Inv (cfg : Config) (s : CalcState) (now : ℚ) : Prop :=
  (∀ b, s.gas_baseline = some b → phase cfg s now = .ACTIVE) ∧
  (s.baseline_gas_readings ≠ [] →
    s.gas_baseline = none ∧ phase cfg s now ≠ .BURN_IN)

/-- The invariant survives the passage of time between ticks: elapsed time
only grows, so ACTIVE stays ACTIVE and past-burn-in stays past burn-in. -/
lemma inv_mono {cfg : Config} {s : CalcState} {now now' : ℚ}
    (hmono : now ≤ now') (h : Inv cfg s now) : Inv cfg s now' := by
  obtain ⟨h1, h2⟩ := h
  have key : ∀ x : ℚ, ¬(now - s.current_calibration_start_time < x) →
      ¬(now' - s.current_calibration_start_time < x) := fun x hx hlt =>
    hx (lt_of_le_of_lt (sub_le_sub_right hmono _) hlt)
  constructor
  · intro b hb
    obtain ⟨ha1, ha2⟩ := phase_active_elim (h1 b hb)
    exact phase_eq_active (key _ ha1) (key _ ha2)
  · intro hbuf
    obtain ⟨hnone, hph⟩ := h2 hbuf
    exact ⟨hnone, phase_ne_burnin (key _ (phase_ne_burnin_elim hph))⟩

/-- Construction establishes the invariant, for a nonnegative sampling
duration (a successful load back-dates the phase start so that the phase is
already ACTIVE). -/
lemma inv_boot {cfg : Config} (hs0 : 0 ≤ cfg.baseline_sampling_duration)
    (t0 : ℚ) (file : FileState) :
    Inv cfg (initCalculator cfg t0 file) t0 := by
  unfold initCalculator
  cases hld : load_baseline cfg t0 file with
  | none =>
    refine ⟨fun b hb => ?_, fun hbuf => ?_⟩
    · simp [initCold] at hb
    · simp [initCold] at hbuf
  | some p =>
    obtain ⟨b, ts⟩ := p
    refine ⟨fun b' _ => ?_, fun hbuf => ?_⟩
    · unfold phase
      dsimp only
      have he : t0 - (t0 - (cfg.burn_in_duration + cfg.baseline_sampling_duration)) =
          cfg.burn_in_duration + cfg.baseline_sampling_duration := by ring
      rw [he, if_neg (not_lt.mpr (le_add_of_nonneg_right hs0)), if_neg (lt_irrefl _)]
    · exact absurd rfl hbuf

/-- One completed `update_post` call preserves the invariant, taken at the
call's own clock reading. -/
lemma inv_update_post {cfg : Config} {st : CalcState} {now' gas : ℚ} {hs : Bool}
    {s' : CalcState} {lvl : AirQualityLevel} {lbl : String}
    (hinv : Inv cfg st now')
    (hup : update_post cfg st now' gas hs = .ok s' lvl lbl) :
    Inv cfg s' now' := by
  obtain ⟨h1inv, h2inv⟩ := hinv
  unfold update_post at hup
  cases hs with
  | false =>
    rw [if_pos rfl] at hup
    split_ifs at hup <;> (cases hup; exact ⟨h1inv, h2inv⟩)
  | true =>
    rw [if_neg (by simp : ¬(true = false))] at hup
    by_cases hburn : now' - st.current_calibration_start_time < cfg.burn_in_duration
    · rw [if_pos hburn] at hup
      cases hup
      exact ⟨h1inv, h2inv⟩
    · rw [if_neg hburn] at hup
      by_cases hsamp : now' - st.current_calibration_start_time <
          cfg.burn_in_duration + cfg.baseline_sampling_duration
      · rw [if_pos hsamp] at hup
        cases hup
        constructor
        · intro b hb
          exact absurd hsamp (phase_active_elim (h1inv b hb)).2
        · intro _
          constructor
          · cases hbl : st.gas_baseline with
            | none => rfl
            | some b => exact absurd hsamp (phase_active_elim (h1inv b hbl)).2
          · exact phase_ne_burnin hburn
      · rw [if_neg hsamp] at hup
        cases hbl : st.gas_baseline with
        | none =>
          rw [hbl] at hup
          dsimp only at hup
          by_cases hbuf : st.baseline_gas_readings = []
          · rw [if_pos hbuf] at hup
            cases hup
            exact ⟨h1inv, h2inv⟩
          · rw [if_neg hbuf] at hup
            unfold classify at hup
            dsimp only at hup
            by_cases hzero : st.baseline_gas_readings.sum /
                (st.baseline_gas_readings.length : ℚ) = 0
            · rw [if_pos hzero] at hup
              exact absurd hup (by simp)
            · rw [if_neg hzero] at hup
              cases hup
              constructor
              · intro b _
                exact phase_eq_active hburn hsamp
              · intro hbuf2
                exact absurd rfl hbuf2
        | some b =>
          rw [hbl] at hup
          dsimp only at hup
          unfold classify at hup
          rw [hbl] at hup
          dsimp only at hup
          by_cases hzero : b = 0
          · rw [if_pos hzero] at hup
            exact absurd hup (by simp)
          · rw [if_neg hzero] at hup
            cases hup
            exact ⟨h1inv, h2inv⟩

/-- One completed `update` call preserves the invariant across a
nondecreasing clock step. -/
lemma inv_step {cfg : Config} {s : CalcState} {now now' gas : ℚ} {hs : Bool}
    {s' : CalcState} {lvl : AirQualityLevel} {lbl : String}
    (hinv : Inv cfg s now) (hmono : now ≤ now')
    (hup : update cfg s now' gas hs = .ok s' lvl lbl) :
    Inv cfg s' now' := by
  unfold update at hup
  by_cases hsr : should_recalibrate cfg s now' = true
  · rw [if_pos hsr] at hup
    refine inv_update_post ⟨fun b hb => ?_, fun hbuf => ?_⟩ hup
    · simp [trigger_recalibration] at hb
    · exact absurd rfl hbuf
  · rw [if_neg hsr] at hup
    exact inv_update_post (inv_mono hmono hinv) hup

/-- The invariant holds in every reachable state. -/
lemma inv_reachable {cfg : Config} (hs0 : 0 ≤ cfg.baseline_sampling_duration)
    {s : CalcState} {now : ℚ} (hr : Reachable cfg s now) : Inv cfg s now := by
  induction hr with
  | boot t0 file => exact inv_boot hs0 t0 file
  | step now' gas hs hr hmono hup ih => exact inv_step ih hmono hup

/-- C7 counterexample: under `defaultCfg` (1 s burn-in, 1 s sampling), a
sampling tick at time 1 buffers the reading 100; a non-heat-stable tick at
time 3 — past the sampling window — leaves the buffer untouched, so a
reachable state has a non-empty sample buffer while the phase is ACTIVE, not
BASELINE_SAMPLING. -/
theorem C7_counterexample :
    Reachable defaultCfg s1 3 ∧
    s1.baseline_gas_readings ≠ [] ∧
    phase defaultCfg s1 3 = .ACTIVE := by
  refine ⟨?_, by simp [s1], by norm_num [phase, s1, defaultCfg]⟩
  have h0 : Reachable defaultCfg (initCalculator defaultCfg 0 .absent) 0 :=
    .boot 0 .absent
  have h1 : update defaultCfg (initCalculator defaultCfg 0 .absent) 1 100 true =
      .ok s1 .CALIBRATING "Baseline (1)" := by
    norm_num [update, update_post, should_recalibrate, initCalculator, load_baseline,
      initCold, defaultCfg, s1]
    rfl
  have h2 : update defaultCfg s1 3 100 false =
      .ok s1 .CALIBRATING "Gas Heating" := by
    norm_num [update, update_post, should_recalibrate, s1, defaultCfg]
  exact .step 3 100 false (.step 1 100 true h0 (by norm_num) h1) (by norm_num) h2

/-- C7 amended: in every reachable state of a configuration with nonnegative
sampling duration, `gas_baseline` is non-null only when the phase at the
state's tick time is ACTIVE (a successful load is immediately ACTIVE via the
back-dated phase start), and the sample buffer is non-empty only when there
is no baseline and the phase is past BURN_IN — i.e. BASELINE_SAMPLING, or
ACTIVE while the pending buffer awaits the first heat-stable tick after the
sampling window. -/
theorem C7_amended_invariant (cfg : Config) (hs0 : 0 ≤ cfg.baseline_sampling_duration)
    {s : CalcState} {now : ℚ} (hr : Reachable cfg s now) :
    (∀ b, s.gas_baseline = some b → phase cfg s now = .ACTIVE) ∧
    (s.baseline_gas_readings ≠ [] →
      s.gas_baseline = none ∧ phase cfg s now ≠ .BURN_IN) :=
  inv_reachable hs0 hr

/-- C7 witness: a calculator constructed at time 10 against a fresh valid
record loads the baseline 100000 Ω and is immediately in the ACTIVE phase. -/
theorem C7_witness :
    phase defaultCfg (initCalculator defaultCfg 10 goodFile) 10 = .ACTIVE :=
  (C7_amended_invariant defaultCfg (by norm_num [defaultCfg]) (.boot 10 goodFile)).1
    100000 (by norm_num [initCalculator, load_baseline, goodFile, pyFalsy, defaultCfg])

/-- C9: `get_baseline_info` does not modify the calculator state, so a second
call with no intervening `update` (same state, same clock reading) returns
the identical snapshot — including the age and staleness fields — or the same
no-baseline sentinel. -/
theorem C9_baseline_info_idempotent (cfg : Config) (s : CalcState) (now : ℚ) :
    (get_baseline_info cfg s now).2 = s ∧
    get_baseline_info cfg (get_baseline_info cfg s now).2 now =
      get_baseline_info cfg s now := by
  cases hb : s.gas_baseline <;> simp [get_baseline_info, hb]

/-- C10: a parsed record whose `baseline` or `timestamp` value is zero is
rejected by `load_baseline` exactly like a missing field (Python truthiness),
whatever its age, and construction against it yields the cold `BURN_IN`
start. -/
theorem C10_zero_fields_rejected (cfg : Config) (now : ℚ) (d : FileData)
    (h : d.baseline = some 0 ∨ d.timestamp = some 0) :
    load_baseline cfg now (.parsed d) = none ∧
    initCalculator cfg now (.parsed d) = initCold now := by
  have hload : load_baseline cfg now (.parsed d) = none := by
    rcases h with h | h <;> simp [load_baseline, pyFalsy, h]
  refine ⟨hload, ?_⟩
  unfold initCalculator
  rw [hload]

/-- C10 witness: the fresh record `{baseline: 0, timestamp: 5}` at time 10 is
not loaded. -/
theorem C10_witness :
    load_baseline defaultCfg 10 (.parsed ⟨some 0, some 5⟩) = none ∧
    initCalculator defaultCfg 10 (.parsed ⟨some 0, some 5⟩) = initCold 10 :=
  C10_zero_fields_rejected defaultCfg 10 ⟨some 0, some 5⟩ (Or.inl rfl)

end BME680
